import Mathlib

/-!
TastyDiscoveries recommendation service: ingestion and query layer.

A shallow embedding of `src/db/db.go` and `src/main.go`.

* Go strings are lists of characters (`Str`).
* `float64` is an abstract type `F`; the operations the code applies to it
  (`strconv.ParseFloat`, the conversion `int(x)`, and whether `encoding/json`
  accepts the value) are collected in `Float64Ops`.
* `strconv.Atoi` and `strings.Split` are library functions; they are modelled
  after the Go standard library (64-bit `int`).
* A run-time panic (index out of range, failed type assertion, nil
  dereference) is the value `none` of an `Option`.
* Calls that leave the process (Elasticsearch, the bulk indexer, the file
  system, the template engine) are answered by an environment passed in as a
  parameter, and every call made is recorded in a trace.
-/

namespace TastyDiscoveries

/-- Go `string`, as its sequence of characters. -/
abbrev Str := List Char

/-! ## Library models: `strconv`, `strings` -/

/-- The two `strconv.NumError` causes. -/
inductive NumError where
  | ErrSyntax
  | ErrRange
  deriving DecidableEq, Repr

/-- Largest `uint64`. -/
def maxUint64 : Nat := 2 ^ 64 - 1

/-- The digit loop of `strconv.ParseUint(s, 10, 64)`: a byte that is not a
decimal digit is a syntax error with value 0; overflow is a range error with
value `maxUint64`; whichever comes first from the left decides. -/
def parseUintLoop : List Char → Nat → Nat × Option NumError
  | [], n => (n, none)
  | c :: cs, n =>
    if !c.isDigit then (0, some .ErrSyntax)
    else if n ≥ maxUint64 / 10 + 1 then (maxUint64, some .ErrRange)
    else
      let n1 := n * 10 + (c.toNat - '0'.toNat)
      if n1 > maxUint64 then (maxUint64, some .ErrRange) else parseUintLoop cs n1

/-- Model of `strconv.ParseUint(s, 10, 64)`. -/
def ParseUint (s : Str) : Nat × Option NumError :=
  match s with
  | [] => (0, some .ErrSyntax)
  | _ => parseUintLoop s 0

/-- Model of `strconv.ParseInt(s, 10, 0)` with a 64-bit `int`. -/
def ParseInt (s : Str) : Int × Option NumError :=
  match s with
  | [] => (0, some .ErrSyntax)
  | c :: cs =>
    let neg := c == '-'
    let rest := if c == '+' || c == '-' then cs else s
    let (un, err) := ParseUint rest
    if err == some .ErrSyntax then (0, err)
    else if !neg && un ≥ 2 ^ 63 then ((2 : Int) ^ 63 - 1, some .ErrRange)
    else if neg && un > 2 ^ 63 then (-(2 : Int) ^ 63, some .ErrRange)
    else (if neg then -(un : Int) else (un : Int), none)

/-- Model of `strconv.Atoi`. Its fast path (short inputs) and its slow path
(`ParseInt(s, 10, 0)`) return the same value and error class on every input,
so the model is the slow path. -/
def Atoi (s : Str) : Int × Option NumError := ParseInt s

/-- Model of `strings.Split(s, sep)` for a one-character separator: the
fields between occurrences of `sep`; never the empty list. -/
def Split (s : Str) (sep : Char) : List Str :=
  match s with
  | [] => [[]]
  | c :: cs =>
    if c = sep then [] :: Split cs sep
    else
      match Split cs sep with
      | [] => [[c]]
      | f :: fs => (c :: f) :: fs

/-- The operations the program applies to `float64` values. -/
structure Float64Ops (F : Type) where
  /-- Operation `strconv.ParseFloat(s, 64)`: the value and the error (if any). -/
  ParseFloat : Str → F × Option NumError
  /-- The conversion `int(x)`. -/
  toInt : F → Int
  /-- Whether `encoding/json` encodes the value (it refuses NaN and ±Inf). -/
  encodes : F → Bool

/-! ## Data model (`db.go`) -/

/-- Go struct `GeoPoint`. -/
structure GeoPoint (F : Type) where
  Lat : F
  Lon : F
  deriving DecidableEq, Repr

/-- Go struct `Place`; `Location` is a pointer and may be nil. -/
structure Place (F : Type) where
  ID : Int
  Name : Str
  Address : Str
  Phone : Str
  Location : Option (GeoPoint F)
  deriving DecidableEq, Repr

/-- Go `GeoPointFromLatLon`. -/
def GeoPointFromLatLon {F : Type} (lat lon : F) : GeoPoint F :=
  { Lat := lat, Lon := lon }

/-- Go `(*Place).ReadFromTSV`: the place the receiver holds afterwards, or
`none` when an index expression `fields[i]` panics. Conversion errors are
discarded (`_`). -/
def ReadFromTSV {F : Type} (ops : Float64Ops F) (data : Str) : Option (Place F) := do
  let fields := Split data '\t'
  let f0 ← fields.get? 0
  let ID := (Atoi f0).1
  let Name ← fields.get? 1
  let Address ← fields.get? 2
  let Phone ← fields.get? 3
  let f5 ← fields.get? 5
  let lat := (ops.ParseFloat f5).1
  let f4 ← fields.get? 4
  let lon := (ops.ParseFloat f4).1
  pure { ID := ID, Name := Name, Address := Address, Phone := Phone,
         Location := some (GeoPointFromLatLon lat lon) }

/-- Go `error` values. -/
structure GoError where
  msg : Str
  deriving DecidableEq, Repr

/-! ## Elasticsearch requests and decoded responses -/

/-- A decoded JSON value, Go `interface{}` as `encoding/json` produces it:
`map[string]interface{}` is an association list. -/
inductive JSON (F : Type) where
  | null
  | bool (b : Bool)
  | num (x : F)
  | str (s : Str)
  | arr (xs : List (JSON F))
  | obj (kvs : List (Str × JSON F))

/-- Type assertion `x.(map[string]interface{})`; `none` is the panic. -/
def JSON.asMap {F : Type} : JSON F → Option (List (Str × JSON F))
  | .obj kvs => some kvs
  | _ => none

/-- Type assertion `x.([]interface{})`. -/
def JSON.asSlice {F : Type} : JSON F → Option (List (JSON F))
  | .arr xs => some xs
  | _ => none

/-- Type assertion `x.(float64)`. -/
def JSON.asFloat {F : Type} : JSON F → Option F
  | .num x => some x
  | _ => none

/-- Type assertion `x.(string)`. -/
def JSON.asString {F : Type} : JSON F → Option Str
  | .str s => some s
  | _ => none

/-- Map index `m[k]`: the nil interface when the key is absent. -/
def index {F : Type} (m : List (Str × JSON F)) (k : String) : JSON F :=
  (m.lookup k.toList).getD .null

/-- The options given to `ES.Search`. -/
structure SearchRequest (F : Type) where
  Index : Str
  TrackTotalHits : Bool := false
  Pretty : Bool := false
  From : Option Int := none
  Size : Option Int := none
  Body : Option (JSON F) := none

/-- What `ES.Search` gives back: an error, or a response whose body
`json.Decode` turns into `rMap` (`none`: decoding failed and `rMap` stays
nil). -/
inductive SearchReply (F : Type) where
  | fail (err : GoError)
  | body (rMap : Option (List (Str × JSON F)))

/-- Calls recorded while a request is served. -/
inductive Event (F : Type) where
  | GetPlaces (limit offset : Int)
  | GetRecomnendation (Latitude Longitude : F)
  | Search (req : SearchRequest F)

/-- The body of the `for _, hit := range ...` loops of `GetPlaces` and
`GetRecomnendation`: the place built from one hit, `none` on a failed type
assertion. -/
def placeOfHit {F : Type} (ops : Float64Ops F) (hit : JSON F) : Option (Place F) := do
  let doc ← hit.asMap
  let source ← (index doc "_source").asMap
  let id ← (index source "id").asFloat
  let name ← (index source "name").asString
  let address ← (index source "address").asString
  let phone ← (index source "phone").asString
  let lat ← (index (← (index source "location").asMap) "lat").asFloat
  let lon ← (index (← (index source "location").asMap) "lon").asFloat
  pure { ID := ops.toInt id, Name := name, Address := address, Phone := phone,
         Location := some (GeoPointFromLatLon lat lon) }

/-- The hit loop: places appended in the order of the hits. -/
def placesOfHits {F : Type} (ops : Float64Ops F) : List (JSON F) → Option (List (Place F))
  | [] => some []
  | hit :: hits => do
    let p ← placeOfHit ops hit
    let ps ← placesOfHits ops hits
    pure (p :: ps)

/-- The request `GetPlaces` sends. -/
def placesRequest {F : Type} (limit offset : Int) : SearchRequest F :=
  { Index := "places".toList, TrackTotalHits := true, Pretty := true,
    From := some offset, Size := some limit }

/-- Go `Place.GetPlaces`: the search it issues and what it returns
(`places, totalHits, err`); `none` is a panic. -/
def GetPlaces {F : Type} (ops : Float64Ops F) (search : SearchRequest F → SearchReply F)
    (limit offset : Int) : List (Event F) × Option (List (Place F) × Int × Option GoError) :=
  let req := placesRequest limit offset
  match search req with
  | .fail err => ([.Search req], some ([], 0, some err))
  | .body decoded =>
    let rMap := decoded.getD []
    ([.Search req], do
      let total ← (index (← (index (← (index rMap "hits").asMap) "total").asMap) "value").asFloat
      let totalHits := ops.toInt total
      let hits ← (index (← (index rMap "hits").asMap) "hits").asSlice
      let places ← placesOfHits ops hits
      pure (places, totalHits, none))

/-- The `sort` map built by `GetRecomnendation`. -/
def recommendSort {F : Type} (Latitude Longitude : F) : JSON F :=
  .obj [("sort".toList, .obj [("_geo_distance".toList, .obj [
    ("location".toList, .obj [("lat".toList, .num Latitude), ("lon".toList, .num Longitude)]),
    ("order".toList, .str "asc".toList),
    ("unit".toList, .str "km".toList),
    ("mode".toList, .str "min".toList),
    ("distance_type".toList, .str "arc".toList),
    ("ignore_unmapped".toList, .bool true)])])]

/-- The request `GetRecomnendation` sends. -/
def recommendRequest {F : Type} (Latitude Longitude : F) : SearchRequest F :=
  { Index := "places".toList, Pretty := true, Size := some 3,
    Body := some (recommendSort Latitude Longitude) }

/-- Go `Place.GetRecomnendation`: the search it issues and what it returns
(`places, err`); `none` is a panic. When `json.Encode` refuses the sort map
(a coordinate that is NaN or infinite) it returns the error without
searching. -/
def GetRecomnendation {F : Type} (ops : Float64Ops F)
    (search : SearchRequest F → SearchReply F) (encodeErr : GoError)
    (Latitude Longitude : F) : List (Event F) × Option (List (Place F) × Option GoError) :=
  if !(ops.encodes Latitude && ops.encodes Longitude) then ([], some ([], some encodeErr))
  else
    let req := recommendRequest Latitude Longitude
    match search req with
    | .fail err => ([.Search req], some ([], some err))
    | .body decoded =>
      let rMap := decoded.getD []
      ([.Search req], do
        let hits ← (index (← (index rMap "hits").asMap) "hits").asSlice
        let places ← placesOfHits ops hits
        pure (places, none))

/-! ## HTTP handlers (`main.go`) -/

/-- Go struct `ViewData`. -/
structure ViewData (F : Type) where
  Name : Str
  Total : Int
  Places : List (Place F)
  PrevPage : Int
  NextPage : Int
  LastPage : Int

/-- Go struct `ViewRecommendation`. -/
structure ViewRecommendation (F : Type) where
  Name : Str
  Places : List (Place F)

/-- One `Write` to the response. -/
inductive Chunk (F : Type) where
  /-- Literal bytes. -/
  | text (s : String)
  /-- The 400 body of `showRecommendations` (invalid location value). -/
  | invalidLocation
  /-- The 400 body of `showPageJSON`, formatted with `pageID`. -/
  | invalidPage (pageID : Int)
  /-- The bytes `json.MarshalIndent` gives for the page. -/
  | page (data : ViewData F)
  /-- The bytes `json.MarshalIndent` gives for the recommendation. -/
  | recommendation (data : ViewRecommendation F)
  /-- The output of executing `pages.html` on the page. -/
  | html (data : ViewData F)

/-- The state of an `http.ResponseWriter` after the handler. -/
structure ResponseWriter (F : Type) where
  /-- The code given to `WriteHeader`; `none` means the implicit 200. -/
  status : Option Nat := none
  contentType : Option String := none
  body : List (Chunk F) := []

/-- The status code the client receives. -/
def ResponseWriter.code {F : Type} (w : ResponseWriter F) : Nat := w.status.getD 200

/-- How `ts.Execute` ends. -/
inductive ExecResult where
  | ok
  | failedBeforeOutput
  | failedAfterOutput

/-- The template engine as `showPageHTML` sees it. -/
structure TemplateEnv (F : Type) where
  /-- Whether `template.ParseFiles("pages.html")` succeeds (else `ts` is nil). -/
  parsed : Bool
  /-- How `ts.Execute(w, data)` ends. -/
  Execute : ViewData F → ExecResult

/-- Go `showPageJSON`, on the `page` query parameter: the calls made and the
response; `none` is a panic inside the handler. -/
def showPageJSON {F : Type} (ops : Float64Ops F) (search : SearchRequest F → SearchReply F)
    (page : Str) : List (Event F) × Option (ResponseWriter F) :=
  let (pageID, err) := Atoi page
  if err.isSome || pageID < 0 || pageID > 1364 then
    ([], some { status := some 400, body := [.invalidPage pageID] })
  else
    let limit : Int := 10
    let offset := pageID * limit
    match GetPlaces ops search limit offset with
    | (tr, none) => (.GetPlaces limit offset :: tr, none)
    | (tr, some (places, total, _)) =>
      let data : ViewData F :=
        { Name := "Places".toList, Total := total, Places := places,
          PrevPage := pageID - 1, NextPage := pageID + 1, LastPage := Int.tdiv total limit }
      (.GetPlaces limit offset :: tr,
        some { contentType := some "application/json", body := [.page data] })

/-- Go `showPageHTML`, on the `page` query parameter. -/
def showPageHTML {F : Type} (ops : Float64Ops F) (search : SearchRequest F → SearchReply F)
    (tmpl : TemplateEnv F) (page : Str) : List (Event F) × Option (ResponseWriter F) :=
  let (pageID, err) := Atoi page
  if err.isSome || pageID < 0 || pageID > 1364 then
    ([], some { status := some 404, contentType := some "text/plain; charset=utf-8",
                body := [.text "404 page not found\n"] })
  else
    let limit : Int := 10
    let offset := pageID * limit
    match GetPlaces ops search limit offset with
    | (tr, none) => (.GetPlaces limit offset :: tr, none)
    | (tr, some (places, total, _)) =>
      let data : ViewData F :=
        { Name := "Places".toList, Total := total, Places := places,
          PrevPage := pageID - 1, NextPage := pageID + 1, LastPage := Int.tdiv total limit }
      (.GetPlaces limit offset :: tr,
        if !tmpl.parsed then none
        else
          match tmpl.Execute data with
          | .ok => some { body := [.html data] }
          | .failedBeforeOutput =>
            some { status := some 500, contentType := some "text/plain; charset=utf-8",
                   body := [.text "Internal Server Error\n"] }
          | .failedAfterOutput =>
            some { contentType := some "text/plain; charset=utf-8",
                   body := [.html data, .text "Internal Server Error\n"] })

/-- Go `showRecommendations`, on the `lat` and `lon` query parameters. The
second `:=` assigns the same `err` again, so only the error of `lon` reaches
the check. -/
def showRecommendations {F : Type} (ops : Float64Ops F)
    (search : SearchRequest F → SearchReply F) (encodeErr : GoError)
    (latParam lonParam : Str) : List (Event F) × Option (ResponseWriter F) :=
  let w : ResponseWriter F := { contentType := some "application/json" }
  let (lat, _) := ops.ParseFloat latParam
  let (lon, err) := ops.ParseFloat lonParam
  if err.isSome then
    ([], some { w with status := some 400, body := [.invalidLocation] })
  else
    match GetRecomnendation ops search encodeErr lat lon with
    | (tr, none) => (.GetRecomnendation lat lon :: tr, none)
    | (tr, some (places, err)) =>
      let w : ResponseWriter F :=
        if err.isSome then
          { w with status := some 500, body := [.text "Internal server error"] }
        else w
      let data : ViewRecommendation F := { Name := "Recommendation".toList, Places := places }
      (.GetRecomnendation lat lon :: tr,
        some { w with body := w.body ++ [.recommendation data] })

/-! ## Bulk load (`db.go`, `IndexPlaces`) -/

/-- The result of an `esapi` index call: an error, or a response with its
HTTP status. -/
inductive EsReply where
  | fail (err : GoError)
  | resp (status : Nat)

/-- Go `(*esapi.Response).IsError`. -/
def EsReply.IsError : EsReply → Bool
  | .fail _ => false
  | .resp status => decide (status > 299)

/-- What `IndexPlaces` finds outside the process. -/
structure IndexEnv where
  /-- The error of `esutil.NewBulkIndexer` (`none`: nil). -/
  NewBulkIndexer : Option GoError
  /-- Result of `os.Open`: `none` when it fails (the handle is then nil), else the data of
  the successive `ReadLine` calls before `io.EOF` (one per line of the file; a line longer
  than the reader's buffer comes in several pieces, since `isPrefix` is ignored). -/
  Open : Option (List Str)
  /-- Result of `ES.Indices.Delete`. -/
  Delete : EsReply
  /-- Result of `indexReq.Do` (create index). -/
  Create : EsReply
  /-- The error of the `i`-th `bi.Add`. -/
  Add : Nat → Option GoError
  /-- The error of `bi.Close`. -/
  Close : Option GoError

/-- The store-side effects of `IndexPlaces`, in program order. -/
inductive IndexEvent (F : Type) where
  /-- Operation `ES.Indices.Delete` on the listed indices. -/
  | Delete (indices : List String) (ignoreUnavailable : Bool)
  /-- Operation `IndicesCreateRequest` with the field types of the mapping. -/
  | Create (name : String) (properties : List (String × String))
  /-- Operation `bi.Add`: action, document id (before `Itoa`) and the place marshalled as body. -/
  | Add (action : String) (DocumentID : Int) (body : Place F)
  /-- Operation `bi.Close`. -/
  | Close
  deriving DecidableEq

/-- How `IndexPlaces` ends. -/
inductive IndexOutcome where
  | returned (err : Option GoError)
  | panicked
  | diverges
  deriving DecidableEq

/-- The field types declared by the `mapping` literal. -/
def mapping : List (String × String) :=
  [("name", "text"), ("address", "text"), ("phone", "text"), ("location", "geo_point")]

/-- How the read loop of `IndexPlaces` is left. -/
inductive LoopExit where
  | eof
  | addFailed (err : GoError)
  | panicked
  deriving DecidableEq

/-- The `for` loop of `IndexPlaces` from the `i`-th line on: each line goes
through `ReadFromTSV` and is handed to `bi.Add`. -/
def indexLoop {F : Type} (ops : Float64Ops F) (Add : Nat → Option GoError) :
    Nat → List Str → List (IndexEvent F) × LoopExit
  | _, [] => ([], .eof)
  | i, data :: rest =>
    match ReadFromTSV ops data with
    | none => ([], .panicked)
    | some p =>
      match Add i with
      | some err => ([.Add "index" p.ID p], .addFailed err)
      | none =>
        let (tr, r) := indexLoop ops Add (i + 1) rest
        (.Add "index" p.ID p :: tr, r)

/-- Go `IndexPlaces`: the store-side effects and how it ends. The error of
`os.Open` is discarded and the check after it reads the `err` of
`NewBulkIndexer`, which is nil there. With a nil handle every `ReadLine`
returns `(nil, false, os.ErrInvalid)`, never `io.EOF`, so the loop body runs
on empty data. -/
def IndexPlaces {F : Type} (ops : Float64Ops F) (env : IndexEnv) :
    List (IndexEvent F) × IndexOutcome :=
  match env.NewBulkIndexer with
  | some err => ([], .returned (some err))
  | none =>
    let del : IndexEvent F := .Delete ["places"] true
    match env.Delete with
    | .fail err => ([del], .returned (some err))
    | .resp status =>
      if (EsReply.resp status).IsError then ([del], .returned none)
      else
        let cre : IndexEvent F := .Create "places" mapping
        match env.Create with
        | .fail err => ([del, cre], .returned (some err))
        | .resp _ =>
          match env.Open with
          | none =>
            -- first iteration: `data` is nil and `err` is not `io.EOF`
            match ReadFromTSV ops [] with
            | none => ([del, cre], .panicked)
            -- were the empty line readable, the loop would never see `io.EOF`
            | some _ => ([del, cre], .diverges)
          | some lines =>
            match indexLoop ops env.Add 0 lines with
            | (tr, .panicked) => (del :: cre :: tr, .panicked)
            | (tr, .addFailed err) => (del :: cre :: tr, .returned (some err))
            | (tr, .eof) => (del :: cre :: tr ++ [.Close], .returned env.Close)

/-! ## A concrete `float64` fragment

For evaluating the program at concrete inputs: the decimal literals
`[+-]digits[.digits]` (digits on at least one side of the point), whose value
is kept exactly, as `mantissa / 10 ^ scale` with no trailing zero in the
fraction, and stands for the `float64` nearest to it. Text without any digit
is a syntax error with value 0, as `ParseFloat` reports it. Exponents,
hexadecimal literals and the words `inf` and `nan` are outside the fragment
and no theorem evaluates it there. -/

/-- An exact decimal value `mantissa / 10 ^ scale`. -/
structure Decimal where
  mantissa : Int
  scale : Nat
  deriving DecidableEq, Repr

/-- The value of a string of decimal digits, `none` when a character is not
a digit. -/
def digitsVal : List Char → Nat → Option Nat
  | [], n => some n
  | c :: cs, n => if c.isDigit then digitsVal cs (n * 10 + (c.toNat - '0'.toNat)) else none

/-- The fraction digits without their trailing zeros. -/
def trimZeros (s : Str) : Str := (s.reverse.dropWhile (fun c => c == '0')).reverse

/-- An unsigned decimal literal `digits[.digits]`: mantissa and scale. -/
def unsignedDecimal (s : Str) : Option (Nat × Nat) :=
  match Split s '.' with
  | [a] => if a = [] then none else (digitsVal a 0).map (fun n => (n, 0))
  | [a, b] =>
    if a = [] ∧ b = [] then none
    else do
      let n ← digitsVal a 0
      let _ ← digitsVal b 0
      let m ← digitsVal (trimZeros b) n
      pure (m, (trimZeros b).length)
  | _ => none

/-- Decimal fragment of `strconv.ParseFloat`. -/
def parseDecimal (s : Str) : Decimal × Option NumError :=
  let signed : Bool × Str :=
    match s with
    | '-' :: cs => (true, cs)
    | '+' :: cs => (false, cs)
    | _ => (false, s)
  match unsignedDecimal signed.2 with
  | some (m, k) => ({ mantissa := if signed.1 then -(m : Int) else (m : Int), scale := k }, none)
  | none => ({ mantissa := 0, scale := 0 }, some .ErrSyntax)

/-- Decimal values: `int(x)` truncates toward zero, and every value is
finite. -/
def decimalOps : Float64Ops Decimal :=
  { ParseFloat := parseDecimal
    toInt := fun d => Int.tdiv d.mantissa ((10 : Int) ^ d.scale)
    encodes := fun _ => true }

/-! ## Concrete stores and files -/

/-- The hit Elasticsearch returns for a stored place. -/
def hitOf (id : Decimal) (name address phone : String) (lat lon : Decimal) : JSON Decimal :=
  .obj [("_index".toList, .str "places".toList),
        ("_source".toList, .obj [
          ("id".toList, .num id), ("name".toList, .str name.toList),
          ("address".toList, .str address.toList), ("phone".toList, .str phone.toList),
          ("location".toList, .obj [("lat".toList, .num lat), ("lon".toList, .num lon)])])]

/-- A store holding the two rows of the end-to-end example: every search is
answered with both hits, total 2. -/
def twoCafes : SearchRequest Decimal → SearchReply Decimal := fun _ =>
  .body (some [("hits".toList, .obj [
    ("total".toList, .obj [("value".toList, .num { mantissa := 2, scale := 0 })]),
    ("hits".toList, .arr [
      hitOf { mantissa := 1, scale := 0 } "Café A" "Addr1" "555-1"
        { mantissa := 407, scale := 1 } { mantissa := -739, scale := 1 },
      hitOf { mantissa := 2, scale := 0 } "Café B" "Addr2" "555-2"
        { mantissa := 408, scale := 1 } { mantissa := -738, scale := 1 }])])])

/-- The two places of `twoCafes`. -/
def cafes : List (Place Decimal) :=
  [{ ID := 1, Name := "Café A".toList, Address := "Addr1".toList, Phone := "555-1".toList,
     Location := some { Lat := { mantissa := 407, scale := 1 },
                        Lon := { mantissa := -739, scale := 1 } } },
   { ID := 2, Name := "Café B".toList, Address := "Addr2".toList, Phone := "555-2".toList,
     Location := some { Lat := { mantissa := 408, scale := 1 },
                        Lon := { mantissa := -738, scale := 1 } } }]

/-- A store that cannot be reached: `ES.Search` returns an error. -/
def storeDown : SearchRequest Decimal → SearchReply Decimal := fun _ =>
  .fail { msg := "connection refused".toList }

/-- A store whose response body is not JSON. -/
def storeGarbled : SearchRequest Decimal → SearchReply Decimal := fun _ => .body none

/-- A template engine that parses and executes without error. -/
def templateOk : TemplateEnv Decimal := { parsed := true, Execute := fun _ => .ok }

/-- The error `json.Encode` reports for a value it refuses. -/
def unsupportedValue : GoError := { msg := "json: unsupported value".toList }

/-- An environment in which every call outside the process succeeds; `file`
is what `os.Open` finds. -/
def healthyEnv (file : Option (List Str)) : IndexEnv :=
  { NewBulkIndexer := none, Open := file, Delete := .resp 200, Create := .resp 200,
    Add := fun _ => none, Close := none }

/-- The first row of the end-to-end example. -/
def rowA : Str := "1\tCafé A\tAddr1\t555-1\t-73.9\t40.7".toList

/-- The place read from `rowA`. -/
def cafeA : Place Decimal :=
  { ID := 1, Name := "Café A".toList, Address := "Addr1".toList, Phone := "555-1".toList,
    Location := some { Lat := { mantissa := 407, scale := 1 },
                       Lon := { mantissa := -739, scale := 1 } } }

/-- The place read from `rowB`. -/
def cafeB : Place Decimal :=
  { ID := 2, Name := "Café B".toList, Address := "Addr2".toList, Phone := "555-2".toList,
    Location := some { Lat := { mantissa := 408, scale := 1 },
                       Lon := { mantissa := -738, scale := 1 } } }

/-! ## Lemmas on the library models -/

theorem Split_ne_nil (s : Str) (sep : Char) : Split s sep ≠ [] := by
  induction s with
  | nil => simp [Split]
  | cons c cs ih =>
    unfold Split
    split
    · simp
    · split <;> simp

theorem Split_no_sep (f : Str) (sep : Char) (h : sep ∉ f) : Split f sep = [f] := by
  induction f with
  | nil => simp [Split]
  | cons c cs ih =>
    have hc : c ≠ sep := fun e => h (by simp [e])
    have hcs : sep ∉ cs := fun e => h (by simp [e])
    unfold Split
    simp [hc, ih hcs]

theorem Split_append_sep (f rest : Str) (sep : Char) (h : sep ∉ f) :
    Split (f ++ sep :: rest) sep = f :: Split rest sep := by
  induction f with
  | nil => simp [Split]
  | cons c cs ih =>
    have hc : c ≠ sep := fun e => h (by simp [e])
    have hcs : sep ∉ cs := fun e => h (by simp [e])
    have e : (c :: cs) ++ sep :: rest = c :: (cs ++ sep :: rest) := rfl
    rw [e, Split]
    simp [hc, ih hcs]

/-- The result of `ReadFromTSV` once the first six fields are known. -/
theorem ReadFromTSV_of_fields {F : Type} (ops : Float64Ops F) (data : Str)
    (f0 f1 f2 f3 f4 f5 : Str) (rest : List Str)
    (h : Split data '\t' = f0 :: f1 :: f2 :: f3 :: f4 :: f5 :: rest) :
    ReadFromTSV ops data =
      some { ID := (Atoi f0).1, Name := f1, Address := f2, Phone := f3,
             Location := some { Lat := (ops.ParseFloat f5).1, Lon := (ops.ParseFloat f4).1 } } := by
  simp [ReadFromTSV, h, GeoPointFromLatLon]

/-- With fewer than six fields an index expression panics. -/
theorem ReadFromTSV_short {F : Type} (ops : Float64Ops F) (data : Str)
    (h : (Split data '\t').length < 6) : ReadFromTSV ops data = none := by
  unfold ReadFromTSV
  rcases hs : Split data '\t' with _ | ⟨f0, _ | ⟨f1, _ | ⟨f2, _ | ⟨f3, _ | ⟨f4, _ | ⟨f5, rest⟩⟩⟩⟩⟩⟩ <;>
    simp [hs] at h ⊢
  omega

/-- A syntax error of `Atoi` comes with the value 0. -/
theorem Atoi_syntax_zero (s : Str) (h : (Atoi s).2 = some .ErrSyntax) : (Atoi s).1 = 0 := by
  unfold Atoi ParseInt at *
  cases s with
  | nil => rfl
  | cons c cs =>
    simp only at h ⊢
    generalize ParseUint (if (c == '+' || c == '-') = true then cs else c :: cs) = r at h ⊢
    obtain ⟨un, err⟩ := r
    simp only at h ⊢
    split_ifs at h ⊢ <;> simp_all

/-- C3: for a line of six tab-separated fields whose numeric fields parse,
`ReadFromTSV` yields the place with ID the integer value of field 0, Name,
Address and Phone the fields 1, 2, 3 unchanged, Lon the value of field 4 and
Lat the value of field 5; on the line `1<TAB>Café A<TAB>Addr1<TAB>555-1<TAB>-73.9<TAB>40.7`
the result has id 1, lat the value of `40.7` and lon the value of `-73.9`. -/
theorem ReadFromTSV_six_fields {F : Type} (ops : Float64Ops F)
    (f0 f1 f2 f3 f4 f5 : Str) (id : Int)
    (h0 : '\t' ∉ f0) (h1 : '\t' ∉ f1) (h2 : '\t' ∉ f2) (h3 : '\t' ∉ f3) (h4 : '\t' ∉ f4)
    (h5 : '\t' ∉ f5) (hid : Atoi f0 = (id, none))
    (_hlon : (ops.ParseFloat f4).2 = none) (_hlat : (ops.ParseFloat f5).2 = none) :
    ReadFromTSV ops
        (f0 ++ '\t' :: (f1 ++ '\t' :: (f2 ++ '\t' :: (f3 ++ '\t' :: (f4 ++ '\t' :: f5))))) =
      some { ID := id, Name := f1, Address := f2, Phone := f3,
             Location := some { Lat := (ops.ParseFloat f5).1, Lon := (ops.ParseFloat f4).1 } }
    ∧ ReadFromTSV ops "1\tCafé A\tAddr1\t555-1\t-73.9\t40.7".toList =
      some { ID := 1, Name := "Café A".toList, Address := "Addr1".toList,
             Phone := "555-1".toList,
             Location := some { Lat := (ops.ParseFloat "40.7".toList).1,
                                Lon := (ops.ParseFloat "-73.9".toList).1 } } := by
  constructor
  · have hs : Split (f0 ++ '\t' :: (f1 ++ '\t' :: (f2 ++ '\t' :: (f3 ++ '\t' :: (f4 ++ '\t' :: f5)))))
        '\t' = [f0, f1, f2, f3, f4, f5] := by
      rw [Split_append_sep _ _ _ h0, Split_append_sep _ _ _ h1, Split_append_sep _ _ _ h2,
        Split_append_sep _ _ _ h3, Split_append_sep _ _ _ h4, Split_no_sep _ _ h5]
    rw [ReadFromTSV_of_fields ops _ f0 f1 f2 f3 f4 f5 [] hs, hid]
  · have hs : Split "1\tCafé A\tAddr1\t555-1\t-73.9\t40.7".toList '\t' =
        ["1".toList, "Café A".toList, "Addr1".toList, "555-1".toList, "-73.9".toList,
          "40.7".toList] := by decide
    have hid1 : Atoi "1".toList = (1, none) := by decide
    rw [ReadFromTSV_of_fields ops _ _ _ _ _ _ _ [] hs, hid1]

theorem ReadFromTSV_six_fields_witness :
    ReadFromTSV decimalOps
        ("2".toList ++ '\t' :: ("Café B".toList ++ '\t' :: ("Addr2".toList ++ '\t' ::
          ("555-2".toList ++ '\t' :: ("-73.8".toList ++ '\t' :: "40.8".toList))))) =
      some { ID := 2, Name := "Café B".toList, Address := "Addr2".toList,
             Phone := "555-2".toList,
             Location := some { Lat := (decimalOps.ParseFloat "40.8".toList).1,
                                Lon := (decimalOps.ParseFloat "-73.8".toList).1 } } :=
  (ReadFromTSV_six_fields decimalOps "2".toList "Café B".toList "Addr2".toList "555-2".toList
    "-73.8".toList "40.8".toList 2 (by decide) (by decide) (by decide) (by decide) (by decide)
    (by decide) (by decide) (by decide) (by decide)).1

/-- C4, the claim as stated fails: a line whose id and longitude are not
numbers and whose latitude is 200 is not rejected; `ReadFromTSV` yields a
place with id 0, longitude 0 and latitude 200. -/
theorem ReadFromTSV_coerces_to_zero :
    (Atoi "x".toList).2 = some .ErrSyntax ∧
    (decimalOps.ParseFloat "y".toList).2 = some .ErrSyntax ∧
    ReadFromTSV decimalOps "x\tCafé A\tAddr1\t555-1\ty\t200".toList =
      some { ID := 0, Name := "Café A".toList, Address := "Addr1".toList,
             Phone := "555-1".toList,
             Location := some { Lat := { mantissa := 200, scale := 0 },
                                Lon := { mantissa := 0, scale := 0 } } } := by
  decide

/-- C4 as amended: on every line with at least six tab-separated fields,
whatever the fields hold, `ReadFromTSV` yields a place and no error: its ID is
the value `Atoi` returns for field 0 (0 on a syntax error), Name, Address and
Phone are fields 1 to 3, and Lat and Lon are the values `ParseFloat` returns
for fields 5 and 4, unchecked against any range. -/
theorem ReadFromTSV_never_rejects {F : Type} (ops : Float64Ops F) (data : Str)
    (h : 6 ≤ (Split data '\t').length) :
    ∃ p : Place F, ReadFromTSV ops data = some p ∧
      p.ID = (Atoi ((Split data '\t').getD 0 [])).1 ∧
      ((Atoi ((Split data '\t').getD 0 [])).2 = some .ErrSyntax → p.ID = 0) ∧
      p.Name = (Split data '\t').getD 1 [] ∧
      p.Address = (Split data '\t').getD 2 [] ∧
      p.Phone = (Split data '\t').getD 3 [] ∧
      p.Location = some { Lat := (ops.ParseFloat ((Split data '\t').getD 5 [])).1,
                          Lon := (ops.ParseFloat ((Split data '\t').getD 4 [])).1 } := by
  rcases hs : Split data '\t' with _ | ⟨f0, _ | ⟨f1, _ | ⟨f2, _ | ⟨f3, _ | ⟨f4, _ | ⟨f5, rest⟩⟩⟩⟩⟩⟩ <;>
    simp [hs] at h
  refine ⟨_, ReadFromTSV_of_fields ops data f0 f1 f2 f3 f4 f5 rest hs, ?_⟩
  simp
  exact Atoi_syntax_zero f0

theorem ReadFromTSV_never_rejects_witness :
    ∃ p : Place Decimal,
      ReadFromTSV decimalOps "x\tCafé A\tAddr1\t555-1\ty\t200".toList = some p ∧
      p.ID = (Atoi ((Split "x\tCafé A\tAddr1\t555-1\ty\t200".toList '\t').getD 0 [])).1 ∧
      ((Atoi ((Split "x\tCafé A\tAddr1\t555-1\ty\t200".toList '\t').getD 0 [])).2 =
          some .ErrSyntax → p.ID = 0) ∧
      p.Name = (Split "x\tCafé A\tAddr1\t555-1\ty\t200".toList '\t').getD 1 [] ∧
      p.Address = (Split "x\tCafé A\tAddr1\t555-1\ty\t200".toList '\t').getD 2 [] ∧
      p.Phone = (Split "x\tCafé A\tAddr1\t555-1\ty\t200".toList '\t').getD 3 [] ∧
      p.Location = some
        { Lat := (decimalOps.ParseFloat
            ((Split "x\tCafé A\tAddr1\t555-1\ty\t200".toList '\t').getD 5 [])).1,
          Lon := (decimalOps.ParseFloat
            ((Split "x\tCafé A\tAddr1\t555-1\ty\t200".toList '\t').getD 4 [])).1 } :=
  ReadFromTSV_never_rejects decimalOps "x\tCafé A\tAddr1\t555-1\ty\t200".toList (by decide)

/-! ## Paginated listing -/

theorem GetPlaces_trace {F : Type} (ops : Float64Ops F)
    (search : SearchRequest F → SearchReply F) (limit offset : Int) :
    (GetPlaces ops search limit offset).1 = [.Search (placesRequest limit offset)] := by
  simp only [GetPlaces]
  split <;> rfl

theorem tdiv_ten_eq_floor (t : Int) (ht : 0 ≤ t) : Int.tdiv t 10 = ⌊(t : ℚ) / 10⌋ := by
  rw [Int.tdiv_eq_ediv ht (by decide)]
  have h := Rat.floor_intCast_div_natCast t 10
  simpa using h.symm

/-- C1: when `showPageJSON` (likewise `showPageHTML`) accepts the page index
`p` (it parses and 0 ≤ p ≤ 1364) and the store call returns `places` with
total `t ≥ 0`, the store was asked for limit 10 and offset `10 * p`, and the
page descriptor is prev_page `p - 1`, next_page `p + 1`, last_page
`floor (t / 10)`, total `t`, with the places as the store returned them; for
`t = 2` last_page is 0. -/
theorem showPage_descriptor {F : Type} (ops : Float64Ops F)
    (search : SearchRequest F → SearchReply F) (tmpl : TemplateEnv F) (page : Str)
    (p t : Int) (places : List (Place F)) (e : Option GoError)
    (hp : Atoi page = (p, none)) (h0 : 0 ≤ p) (h1 : p ≤ 1364)
    (hstore : (GetPlaces ops search 10 (10 * p)).2 = some (places, t, e)) (ht : 0 ≤ t) :
    showPageJSON ops search page =
      ([.GetPlaces 10 (10 * p),
        .Search { Index := "places".toList, TrackTotalHits := true, Pretty := true,
                  From := some (10 * p), Size := some 10 }],
       some { contentType := some "application/json",
              body := [.page { Name := "Places".toList, Total := t, Places := places,
                               PrevPage := p - 1, NextPage := p + 1,
                               LastPage := ⌊(t : ℚ) / 10⌋ }] })
    ∧ (tmpl.parsed = true →
        tmpl.Execute { Name := "Places".toList, Total := t, Places := places,
                       PrevPage := p - 1, NextPage := p + 1,
                       LastPage := ⌊(t : ℚ) / 10⌋ } = .ok →
        showPageHTML ops search tmpl page =
          ([.GetPlaces 10 (10 * p),
            .Search { Index := "places".toList, TrackTotalHits := true, Pretty := true,
                      From := some (10 * p), Size := some 10 }],
           some { body := [.html { Name := "Places".toList, Total := t, Places := places,
                                   PrevPage := p - 1, NextPage := p + 1,
                                   LastPage := ⌊(t : ℚ) / 10⌋ }] }))
    ∧ ⌊((2 : Int) : ℚ) / 10⌋ = 0 := by
  have hguard : ((none : Option NumError).isSome || decide (p < 0) || decide (p > 1364)) = false := by
    simp; omega
  have htr := GetPlaces_trace ops search 10 (10 * p)
  have hg : GetPlaces ops search 10 (p * 10) =
      ([.Search (placesRequest 10 (10 * p))], some (places, t, e)) := by
    rw [Int.mul_comm p 10]
    exact Prod.ext htr hstore
  refine ⟨?_, ?_, ?_⟩
  · simp only [showPageJSON, hp, hguard, hg, tdiv_ten_eq_floor t ht]
    simp [placesRequest, Int.mul_comm]
  · intro hparsed hexec
    simp only [showPageHTML, hp, hguard, hg, tdiv_ten_eq_floor t ht, hparsed, hexec]
    simp [placesRequest, Int.mul_comm]
  · have h := tdiv_ten_eq_floor 2 (by decide)
    rw [← h]
    decide

theorem showPage_descriptor_witness :
    showPageJSON decimalOps twoCafes "0".toList =
      ([.GetPlaces 10 (10 * 0),
        .Search { Index := "places".toList, TrackTotalHits := true, Pretty := true,
                  From := some (10 * 0), Size := some 10 }],
       some { contentType := some "application/json",
              body := [.page { Name := "Places".toList, Total := 2, Places := cafes,
                               PrevPage := 0 - 1, NextPage := 0 + 1,
                               LastPage := ⌊((2 : Int) : ℚ) / 10⌋ }] }) :=
  (showPage_descriptor decimalOps twoCafes templateOk "0".toList 0 2 cafes none
    (by decide) (by decide) (by decide) (by decide) (by decide)).1

/-- C2, the claim as stated fails: the page parameter `1365` is an integer
and not negative, yet `showPageJSON` answers 400 and `showPageHTML` answers
404, neither calling the store. -/
theorem showPage_rejects_1365 :
    Atoi "1365".toList = (1365, none) ∧ (0 : Int) ≤ 1365 ∧
    showPageJSON decimalOps twoCafes "1365".toList =
      ([], some { status := some 400, body := [.invalidPage 1365] }) ∧
    showPageHTML decimalOps twoCafes templateOk "1365".toList =
      ([], some { status := some 404, contentType := some "text/plain; charset=utf-8",
                  body := [.text "404 page not found\n"] }) :=
  ⟨by decide, by decide, rfl, rfl⟩

/-- C2 as amended: a request is accepted exactly when its page parameter
parses as an integer `p` with 0 ≤ p ≤ 1364. Then the handler calls the store
once, with limit 10 and offset `10 * p`. Otherwise (not an integer, negative,
or above 1364) `showPageJSON` answers 400 and `showPageHTML` answers 404, and
no store call is made. -/
theorem showPage_accepts_iff {F : Type} (ops : Float64Ops F)
    (search : SearchRequest F → SearchReply F) (tmpl : TemplateEnv F) (page : Str) :
    (((Atoi page).2 = none ∧ 0 ≤ (Atoi page).1 ∧ (Atoi page).1 ≤ 1364) →
      (showPageJSON ops search page).1 =
        [.GetPlaces 10 (10 * (Atoi page).1), .Search (placesRequest 10 (10 * (Atoi page).1))] ∧
      (showPageHTML ops search tmpl page).1 =
        [.GetPlaces 10 (10 * (Atoi page).1), .Search (placesRequest 10 (10 * (Atoi page).1))]) ∧
    (¬ ((Atoi page).2 = none ∧ 0 ≤ (Atoi page).1 ∧ (Atoi page).1 ≤ 1364) →
      showPageJSON ops search page =
        ([], some { status := some 400, body := [.invalidPage (Atoi page).1] }) ∧
      showPageHTML ops search tmpl page =
        ([], some { status := some 404, contentType := some "text/plain; charset=utf-8",
                    body := [.text "404 page not found\n"] })) := by
  rcases hA : Atoi page with ⟨p, err⟩
  constructor
  · rintro ⟨herr, h0, h1⟩
    simp only at herr h0 h1
    subst herr
    have hguard : ((none : Option NumError).isSome || decide (p < 0) || decide (p > 1364)) = false := by
      simp; omega
    have htr := GetPlaces_trace ops search 10 (p * 10)
    simp only [showPageJSON, showPageHTML, hA, hguard]
    rcases hG : GetPlaces ops search 10 (p * 10) with ⟨tr, _ | ⟨places, total, e⟩⟩ <;>
      simp [hG] at htr <;> simp [htr, Int.mul_comm]
  · intro hrej
    have hguard : (err.isSome || decide (p < 0) || decide (p > 1364)) = true := by
      simp only [not_and_or, not_le] at hrej
      rcases hrej with h | h | h
      · cases err <;> simp at h ⊢
      · simp [h]
      · simp [h]
    simp [showPageJSON, showPageHTML, hA, hguard]

theorem showPage_accepts_iff_witness :
    (showPageJSON decimalOps twoCafes "1364".toList).1 =
        [.GetPlaces 10 (10 * (Atoi "1364".toList).1),
         .Search (placesRequest 10 (10 * (Atoi "1364".toList).1))] ∧
      (showPageHTML decimalOps twoCafes templateOk "1364".toList).1 =
        [.GetPlaces 10 (10 * (Atoi "1364".toList).1),
         .Search (placesRequest 10 (10 * (Atoi "1364".toList).1))] :=
  (showPage_accepts_iff decimalOps twoCafes templateOk "1364".toList).1
    ⟨by decide, by decide, by decide⟩

/-! ## Recommendation -/

/-- C5, the claim as stated fails: with `lat = 200` and `lon = 0`
`showRecommendations` invokes `GetRecomnendation` with latitude 200, the
search is sent, and the answer is a success body. -/
theorem showRecommendations_forwards_lat_200 :
    showRecommendations decimalOps twoCafes unsupportedValue "200".toList "0".toList =
      ([.GetRecomnendation { mantissa := 200, scale := 0 } { mantissa := 0, scale := 0 },
        .Search (recommendRequest { mantissa := 200, scale := 0 } { mantissa := 0, scale := 0 })],
       some { contentType := some "application/json",
              body := [.recommendation { Name := "Recommendation".toList, Places := cafes }] }) :=
  rfl

/-- C5 as amended: when `ParseFloat` rejects `lon`, `showRecommendations`
answers 400 with the invalid-location body and `GetRecomnendation` is not
invoked; when `lat` and `lon` both parse, `GetRecomnendation` is invoked with
the parsed values whatever they are (no finiteness or range check is made). -/
theorem showRecommendations_validation {F : Type} (ops : Float64Ops F)
    (search : SearchRequest F → SearchReply F) (encodeErr : GoError) (lat lon : Str) :
    ((ops.ParseFloat lon).2 ≠ none →
      showRecommendations ops search encodeErr lat lon =
        ([], some { status := some 400, contentType := some "application/json",
                    body := [.invalidLocation] })) ∧
    ((ops.ParseFloat lat).2 = none → (ops.ParseFloat lon).2 = none →
      (showRecommendations ops search encodeErr lat lon).1 =
        .GetRecomnendation (ops.ParseFloat lat).1 (ops.ParseFloat lon).1 ::
          (GetRecomnendation ops search encodeErr (ops.ParseFloat lat).1
            (ops.ParseFloat lon).1).1) := by
  rcases hlat : ops.ParseFloat lat with ⟨a, ea⟩
  rcases hlon : ops.ParseFloat lon with ⟨b, eb⟩
  constructor
  · intro h
    cases eb with
    | none => simp at h
    | some x => simp [showRecommendations, hlat, hlon]
  · intro _ h
    simp only at h
    subst h
    simp only [showRecommendations, hlat, hlon]
    rcases hG : GetRecomnendation ops search encodeErr a b with ⟨tr, _ | ⟨places, e⟩⟩ <;> simp

theorem showRecommendations_validation_witness :
    (showRecommendations decimalOps twoCafes unsupportedValue "40.71".toList "-73.91".toList).1 =
      .GetRecomnendation (decimalOps.ParseFloat "40.71".toList).1
          (decimalOps.ParseFloat "-73.91".toList).1 ::
        (GetRecomnendation decimalOps twoCafes unsupportedValue
          (decimalOps.ParseFloat "40.71".toList).1
          (decimalOps.ParseFloat "-73.91".toList).1).1 :=
  (showRecommendations_validation decimalOps twoCafes unsupportedValue "40.71".toList
    "-73.91".toList).2 (by decide) (by decide)

theorem placesOfHits_forall₂ {F : Type} (ops : Float64Ops F) :
    ∀ (hits : List (JSON F)) (ps : List (Place F)), placesOfHits ops hits = some ps →
      List.Forall₂ (fun h p => placeOfHit ops h = some p) hits ps := by
  intro hits
  induction hits with
  | nil =>
    intro ps h
    simp [placesOfHits] at h
    subst h
    exact List.Forall₂.nil
  | cons hit hits ih =>
    intro ps h
    simp only [placesOfHits] at h
    cases hp : placeOfHit ops hit with
    | none => simp [hp] at h
    | some p =>
      cases hps : placesOfHits ops hits with
      | none => simp [hp, hps] at h
      | some ps' =>
        simp [hp, hps] at h
        subst h
        exact List.Forall₂.cons hp (ih ps' hps)

theorem GetRecomnendation_trace {F : Type} (ops : Float64Ops F)
    (search : SearchRequest F → SearchReply F) (encodeErr : GoError) (Latitude Longitude : F)
    (hlat : ops.encodes Latitude = true) (hlon : ops.encodes Longitude = true) :
    (GetRecomnendation ops search encodeErr Latitude Longitude).1 =
      [.Search (recommendRequest Latitude Longitude)] := by
  simp only [GetRecomnendation, hlat, hlon]
  simp only [Bool.and_self, Bool.not_true, Bool.false_eq_true, if_false]
  split <;> rfl

/-- C7: for every pair (Latitude, Longitude) the search request that
`GetRecomnendation` builds sorts by `_geo_distance` from the point
`lat: Latitude, lon: Longitude` (not swapped), order asc, distance type arc,
unit km, ignore_unmapped set, with size 3 on the index `places`; no other
search is ever issued, and this one is issued whenever the coordinates can be
encoded; the places returned without error are the hits of the store's
response in the store's order, one place per hit, so at most 3 when the store
returns at most 3 hits. -/
theorem GetRecomnendation_request {F : Type} (ops : Float64Ops F)
    (search : SearchRequest F → SearchReply F) (encodeErr : GoError) (Latitude Longitude : F) :
    (∃ g : List (Str × JSON F),
      (recommendRequest Latitude Longitude).Body =
        some (.obj [("sort".toList, .obj [("_geo_distance".toList, .obj g)])]) ∧
      index g "location" =
        .obj [("lat".toList, .num Latitude), ("lon".toList, .num Longitude)] ∧
      index g "order" = .str "asc".toList ∧
      index g "distance_type" = .str "arc".toList ∧
      index g "unit" = .str "km".toList ∧
      index g "ignore_unmapped" = .bool true) ∧
    (recommendRequest Latitude Longitude).Size = some 3 ∧
    (recommendRequest Latitude Longitude).Index = "places".toList ∧
    (∀ ev ∈ (GetRecomnendation ops search encodeErr Latitude Longitude).1,
      ev = .Search (recommendRequest Latitude Longitude)) ∧
    (ops.encodes Latitude = true → ops.encodes Longitude = true →
      (GetRecomnendation ops search encodeErr Latitude Longitude).1 =
        [.Search (recommendRequest Latitude Longitude)]) ∧
    (∀ places : List (Place F),
      (GetRecomnendation ops search encodeErr Latitude Longitude).2 = some (places, none) →
      ∃ rMap hm hits,
        search (recommendRequest Latitude Longitude) = .body rMap ∧
        index (rMap.getD []) "hits" = .obj hm ∧ index hm "hits" = .arr hits ∧
        List.Forall₂ (fun h p => placeOfHit ops h = some p) hits places ∧
        places.length = hits.length ∧ (hits.length ≤ 3 → places.length ≤ 3)) ∧
    (∀ rMap hm hits places,
      ops.encodes Latitude = true → ops.encodes Longitude = true →
      search (recommendRequest Latitude Longitude) = .body rMap →
      index (rMap.getD []) "hits" = .obj hm → index hm "hits" = .arr hits →
      placesOfHits ops hits = some places →
      (GetRecomnendation ops search encodeErr Latitude Longitude).2 = some (places, none)) := by
  refine ⟨⟨_, rfl, rfl, rfl, rfl, rfl, rfl⟩, rfl, rfl, ?_, ?_, ?_, ?_⟩
  · intro ev hev
    by_cases henc : (ops.encodes Latitude && ops.encodes Longitude) = true
    · simp only [Bool.and_eq_true] at henc
      rw [GetRecomnendation_trace ops search encodeErr _ _ henc.1 henc.2] at hev
      simpa using hev
    · simp [GetRecomnendation, henc] at hev
  · exact GetRecomnendation_trace ops search encodeErr Latitude Longitude
  · intro places h
    by_cases henc : (ops.encodes Latitude && ops.encodes Longitude) = true
    · simp only [GetRecomnendation, henc, Bool.not_true, Bool.false_eq_true, if_false] at h
      cases hs : search (recommendRequest Latitude Longitude) with
      | fail err => simp [hs] at h
      | body rMap =>
        simp only [hs] at h
        cases hm : index (rMap.getD []) "hits" with
        | obj m =>
          cases hh : index m "hits" with
          | arr hits =>
            cases hps : placesOfHits ops hits with
            | none => simp [hm, hh, hps, JSON.asMap, JSON.asSlice] at h
            | some ps =>
              simp [hm, hh, hps, JSON.asMap, JSON.asSlice] at h
              subst h
              have hf := placesOfHits_forall₂ ops hits ps hps
              have hl := hf.length_eq
              exact ⟨rMap, m, hits, rfl, hm, hh, hf, hl.symm, fun h3 => by omega⟩
          | _ => simp [hm, hh, JSON.asMap, JSON.asSlice] at h
        | _ => simp [hm, JSON.asMap] at h
    · simp [GetRecomnendation, henc] at h
  · intro rMap hm hits places hlat hlon hs hmap hhits hps
    simp [GetRecomnendation, hlat, hlon, hs, hmap, hhits, hps, JSON.asMap, JSON.asSlice]

theorem GetRecomnendation_request_witness :
    (GetRecomnendation decimalOps twoCafes unsupportedValue { mantissa := 4071, scale := 2 }
        { mantissa := -7391, scale := 2 }).1 =
      [.Search (recommendRequest { mantissa := 4071, scale := 2 }
        { mantissa := -7391, scale := 2 })] ∧
    (GetRecomnendation decimalOps twoCafes unsupportedValue { mantissa := 4071, scale := 2 }
        { mantissa := -7391, scale := 2 }).2 = some (cafes, none) :=
  ⟨(GetRecomnendation_request decimalOps twoCafes unsupportedValue { mantissa := 4071, scale := 2 }
      { mantissa := -7391, scale := 2 }).2.2.2.2.1 rfl rfl,
   rfl⟩

/-! ## Store failures -/

/-- C8, the code at the failing inputs: when `ES.Search` returns an error,
`showPageJSON` and `showPageHTML` answer with the implicit status 200 and a
page built from the empty result, and `showRecommendations` sets status 500
but still appends a recommendation body built from the empty result; when
the response body does not decode, the handlers panic and write nothing. -/
theorem store_failure_not_reported :
    showPageJSON decimalOps storeDown "0".toList =
      ([.GetPlaces 10 0, .Search (placesRequest 10 0)],
       some { status := none, contentType := some "application/json",
              body := [.page { Name := "Places".toList, Total := 0, Places := [],
                               PrevPage := -1, NextPage := 1, LastPage := 0 }] }) ∧
    showPageHTML decimalOps storeDown templateOk "0".toList =
      ([.GetPlaces 10 0, .Search (placesRequest 10 0)],
       some { status := none,
              body := [.html { Name := "Places".toList, Total := 0, Places := [],
                               PrevPage := -1, NextPage := 1, LastPage := 0 }] }) ∧
    showRecommendations decimalOps storeDown unsupportedValue "40.71".toList "-73.91".toList =
      ([.GetRecomnendation { mantissa := 4071, scale := 2 } { mantissa := -7391, scale := 2 },
        .Search (recommendRequest { mantissa := 4071, scale := 2 }
          { mantissa := -7391, scale := 2 })],
       some { status := some 500, contentType := some "application/json",
              body := [.text "Internal server error",
                       .recommendation { Name := "Recommendation".toList, Places := [] }] }) ∧
    (showPageJSON decimalOps storeGarbled "0".toList).2 = none ∧
    (showPageHTML decimalOps storeGarbled templateOk "0".toList).2 = none ∧
    (showRecommendations decimalOps storeGarbled unsupportedValue "40.71".toList
      "-73.91".toList).2 = none :=
  ⟨rfl, rfl, rfl, rfl, rfl, rfl⟩

/-! ## Bulk load -/

/-- C9, the code at the failing input: when `os.Open` fails and every store
call succeeds, `IndexPlaces` deletes the `places` index, creates it again and
then panics in the read loop; it does not return an error. -/
theorem IndexPlaces_unopened_file {F : Type} (ops : Float64Ops F) :
    IndexPlaces ops (healthyEnv none) =
      ([.Delete ["places"] true, .Create "places" mapping], .panicked) := by
  have h : ReadFromTSV ops [] = none := ReadFromTSV_short ops [] (by decide)
  simp [IndexPlaces, healthyEnv, EsReply.IsError, h]

/-- C10, the code at the failing input: when the store answers the create
request with status 400 (no transport error), `IndexPlaces` goes on, submits
the document of the file and returns a nil error. -/
theorem IndexPlaces_ignores_create_status :
    IndexPlaces decimalOps
        { NewBulkIndexer := none, Open := some [rowA], Delete := .resp 200,
          Create := .resp 400, Add := fun _ => none, Close := none } =
      ([.Delete ["places"] true, .Create "places" mapping, .Add "index" 1 cafeA, .Close],
       .returned none) := by
  decide

end TastyDiscoveries
